import Mathlib

/-!
Verification of the Water-Bill-Bot ledger store and billing engine
(`src/main.py`).  Python floats are modelled as rationals (`ℚ`), JSON
dictionaries as insertion-ordered association lists, and the filesystem
(for load/save/backup paths) as explicit value-level state.  Each
definition mirrors the Python function of the same (or closely related)
name in `src/main.py`.
-/

namespace WaterBillBot

/-- Constant `UNIT_PRICE = 700` from `src/main.py`. -/
def UNIT_PRICE : ℚ := 700

/-- Constant `MONTHLY_FEE = 250` from `src/main.py`. -/
def MONTHLY_FEE : ℚ := 250

/-- Invoice record, mirroring the `Invoice` dataclass (readings and
amounts are Python floats, modelled as `ℚ`). -/
structure Invoice where
  user_id : String
  year_month : String
  previous_reading : ℚ
  current_reading : ℚ
  consumption : ℚ
  total_amount : ℚ
  timestamp : String
  month_name : String := ""
deriving DecidableEq

/-- Subscriber record as stored in `data["users"]`.  JSON records are
open-ended, so the fields read back with `.get(key, default)` are
modelled as `Option`s (`none` = key absent). -/
structure UserRec where
  first_name : String := ""
  username : String := ""
  reminder_enabled : Option Bool := some true
  notification_time : String := "10:00"
  created_at : String := ""
  last_active : String := ""
  last_reading : Option ℚ := none
  last_invoice_date : Option String := none
deriving DecidableEq

/-- The `settings` sub-record of the persisted document. -/
structure Settings where
  unit_price : ℚ := UNIT_PRICE
  monthly_fee : ℚ := MONTHLY_FEE
  currency : String := "﷼"
  reminder_day : Nat := 1
  reminder_hour : Nat := 13
deriving DecidableEq

/-- The persisted root document (`self.data` in `DataManager`).  The two
JSON dictionaries are modelled as insertion-ordered association lists,
exactly the iteration/update semantics of a Python `dict`. -/
structure Doc where
  version : String := "2.0"
  created_at : String := ""
  users : List (String × UserRec) := []
  invoices : List (String × Invoice) := []
  settings : Settings := {}
deriving DecidableEq

/-- Python `dict` assignment `d[k] = v`: update the first (unique)
occurrence of `k` in place, otherwise append at the end. -/
def dictInsert {α : Type} (k : String) (v : α) : List (String × α) → List (String × α)
  | [] => [(k, v)]
  | (k1, v1) :: rest =>
      if k1 = k then (k, v) :: rest else (k1, v1) :: dictInsert k v rest

/-- Python `dict` lookup `d.get(k)`: value at the first occurrence of `k`. -/
def dictGet {α : Type} (k : String) (l : List (String × α)) : Option α :=
  (l.find? (fun p => p.1 == k)).map Prod.snd

/-- Python in-place field update `d[k].field = ...` on an existing entry. -/
def updateAssoc {α : Type} (k : String) (f : α → α) : List (String × α) → List (String × α)
  | [] => []
  | (k1, v1) :: rest =>
      if k1 = k then (k1, f v1) :: rest else (k1, v1) :: updateAssoc k f rest

/-- `DataManager.initialize_data_structure`: the fresh empty document
(`now` stands for `datetime.datetime.now().isoformat()`). -/
def init_data_structure (now : String) : Doc :=
  { version := "2.0", created_at := now, users := [], invoices := [], settings := {} }

/-- The default subscriber record created by `DataManager.get_user` on
first access. -/
def defaultUser (now : String) : UserRec :=
  { first_name := "", username := "", reminder_enabled := some true,
    notification_time := "10:00", created_at := now, last_active := now }

/-- Document effect of `DataManager.get_user`: create the default record
when the id is absent (the read part just returns the entry). -/
def get_user_doc (doc : Doc) (uid : String) (now : String) : Doc :=
  if doc.users.any (fun p => p.1 == uid) then doc
  else { doc with users := doc.users ++ [(uid, defaultUser now)] }

/-- Sorting relation used by `get_user_invoices`:
`invoices.sort(key=lambda x: x["year_month"], reverse=True)`, i.e. a
stable sort into descending `year_month` order. -/
def ymGE (a b : Invoice) : Prop := b.year_month ≤ a.year_month

instance : DecidableRel ymGE :=
  fun a b => inferInstanceAs (Decidable (b.year_month ≤ a.year_month))

instance : IsTotal Invoice ymGE := ⟨fun a b => le_total b.year_month a.year_month⟩

instance : IsTrans Invoice ymGE := ⟨fun _ _ _ h1 h2 => le_trans h2 h1⟩

/-- `DataManager.get_user_invoices`: collect this subscriber's invoice
records in dict order, stable-sort descending by `year_month`, truncate
to `limit`. -/
def get_user_invoices (doc : Doc) (uid : String) (limit : Nat) : List Invoice :=
  (List.insertionSort ymGE
    (((doc.invoices.map Prod.snd)).filter (fun inv => inv.user_id == uid))).take limit

/-- `DataManager.get_last_reading`: current reading of the first invoice
of `get_user_invoices(user_id, limit=1)`, else `None`. -/
def get_last_reading (doc : Doc) (uid : String) : Option ℚ :=
  match get_user_invoices doc uid 1 with
  | [] => none
  | inv :: _ => some inv.current_reading

/-- `DataManager.save_invoice`: ensure the subscriber exists, upsert the
invoice under the key `user_id ++ "_" ++ year_month`, refresh the
subscriber's cached `last_reading` / `last_invoice_date`, and return the
composite key. -/
def save_invoice (doc : Doc) (inv : Invoice) (now : String) : Doc × String :=
  let doc1 := get_user_doc doc inv.user_id now
  let invoice_id := inv.user_id ++ "_" ++ inv.year_month
  let doc2 := { doc1 with invoices := dictInsert invoice_id inv doc1.invoices }
  let doc3 := { doc2 with
    users := updateAssoc inv.user_id
      (fun u => { u with last_reading := some inv.current_reading,
                         last_invoice_date := some inv.year_month }) doc2.users }
  (doc3, invoice_id)

/-- `DataManager.get_all_users_for_reminder`: subscribers whose
`reminder_enabled` key is truthy, with `True` as the default for an
absent key. -/
def get_all_users_for_reminder (doc : Doc) : List (String × UserRec) :=
  doc.users.filter (fun p => p.2.reminder_enabled.getD true)

/-- Decimal digit character (`0`–`9`). -/
def digitChar (d : Nat) : Char := Char.ofNat (48 + d % 10)

/-- `today.strftime("%Y-%m")`: the zero-padded `YYYY-MM` billing-period
key (faithful for the four-digit years `strftime` emits). -/
def periodKey (y m : Nat) : String :=
  ⟨[digitChar (y / 1000), digitChar (y / 100), digitChar (y / 10), digitChar y,
    '-', digitChar (m / 10), digitChar m]⟩

/-- The Arabic month names list `arabic_months` from `WaterBillBot`. -/
def arabicMonths : List String :=
  ["يناير", "فبراير", "مارس", "أبريل", "مايو", "يونيو",
   "يوليو", "أغسطس", "سبتمبر", "أكتوبر", "نوفمبر", "ديسمبر"]

/-- `WaterBillBot.get_arabic_month` (total variant of the list index). -/
def get_arabic_month (month : Nat) : String := arabicMonths.getD (month - 1) ""

/-- `WaterBillBot.calculate_invoice`: previous reading is the last saved
reading (`or 0` when there is none), the reading must not decrease, and
the bill is `consumption * UNIT_PRICE + MONTHLY_FEE`.  `y`/`m` are the
calendar year and month of `now`, `ts` its formatted timestamp. -/
def calculate_invoice (doc : Doc) (uid : String) (current_reading : ℚ)
    (y m : Nat) (ts : String) : Except String Invoice :=
  let previous_reading := (get_last_reading doc uid).getD 0
  if current_reading < previous_reading then
    .error "القراءة الحالية أقل من السابقة"
  else
    let consumption := current_reading - previous_reading
    let consumption_total := consumption * UNIT_PRICE
    let total_bill := consumption_total + MONTHLY_FEE
    .ok { user_id := uid
          year_month := periodKey y m
          previous_reading := previous_reading
          current_reading := current_reading
          consumption := consumption
          total_amount := total_bill
          timestamp := ts
          month_name := get_arabic_month m ++ " " ++ toString y }

/-- The reading-submission path of `WaterBillBot.handle_reading`: compute
the invoice and save it; on a validation error reply with the message
and leave the document untouched. -/
def submit_reading (doc : Doc) (uid : String) (current_reading : ℚ)
    (y m : Nat) (ts now : String) : Option String × Doc :=
  match calculate_invoice doc uid current_reading y m ts with
  | .error e => (some e, doc)
  | .ok inv => (none, (save_invoice doc inv now).1)

/-- C1: for every subscriber state and every reading at or above the
previous one, `calculate_invoice` succeeds with
`consumption = current − previous` and
`total_amount = consumption * UNIT_PRICE + MONTHLY_FEE` exactly
(no rounding), with `UNIT_PRICE = 700` and `MONTHLY_FEE = 250`. -/
theorem calculate_invoice_flat_formula (doc : Doc) (uid : String)
    (current : ℚ) (y m : Nat) (ts : String)
    (h : (get_last_reading doc uid).getD 0 ≤ current) :
    ∃ inv, calculate_invoice doc uid current y m ts = .ok inv ∧
      inv.previous_reading = (get_last_reading doc uid).getD 0 ∧
      inv.current_reading = current ∧
      inv.consumption = current - (get_last_reading doc uid).getD 0 ∧
      inv.total_amount = inv.consumption * UNIT_PRICE + MONTHLY_FEE ∧
      UNIT_PRICE = 700 ∧ MONTHLY_FEE = 250 := by
  have h2 : calculate_invoice doc uid current y m ts =
      .ok { user_id := uid
            year_month := periodKey y m
            previous_reading := (get_last_reading doc uid).getD 0
            current_reading := current
            consumption := current - (get_last_reading doc uid).getD 0
            total_amount := (current - (get_last_reading doc uid).getD 0) * UNIT_PRICE
              + MONTHLY_FEE
            timestamp := ts
            month_name := get_arabic_month m ++ " " ++ toString y } := by
    simp only [calculate_invoice, if_neg (not_lt.mpr h)]
  exact ⟨_, h2, rfl, rfl, rfl, rfl, rfl, rfl⟩

/-- C1 witness: the spec example `previous = 100`, `current = 145` gives
`consumption = 45` and `total_amount = 31750`. -/
theorem calculate_invoice_flat_formula_witness :
    (get_last_reading
        { users := [("7", { last_reading := some 100 })],
          invoices := [("7_2024-01",
            { user_id := "7", year_month := "2024-01", previous_reading := 40,
              current_reading := 100, consumption := 60, total_amount := 42250,
              timestamp := "t" })] } "7").getD 0 ≤ (145 : ℚ) ∧
    (∃ inv, calculate_invoice
        { users := [("7", { last_reading := some 100 })],
          invoices := [("7_2024-01",
            { user_id := "7", year_month := "2024-01", previous_reading := 40,
              current_reading := 100, consumption := 60, total_amount := 42250,
              timestamp := "t" })] } "7" 145 2024 2 "t2" = .ok inv ∧
      inv.previous_reading = (get_last_reading
        { users := [("7", { last_reading := some 100 })],
          invoices := [("7_2024-01",
            { user_id := "7", year_month := "2024-01", previous_reading := 40,
              current_reading := 100, consumption := 60, total_amount := 42250,
              timestamp := "t" })] } "7").getD 0 ∧
      inv.current_reading = 145 ∧
      inv.consumption = 145 - (get_last_reading
        { users := [("7", { last_reading := some 100 })],
          invoices := [("7_2024-01",
            { user_id := "7", year_month := "2024-01", previous_reading := 40,
              current_reading := 100, consumption := 60, total_amount := 42250,
              timestamp := "t" })] } "7").getD 0 ∧
      inv.total_amount = inv.consumption * UNIT_PRICE + MONTHLY_FEE ∧
      UNIT_PRICE = 700 ∧ MONTHLY_FEE = 250) :=
  ⟨by decide, calculate_invoice_flat_formula _ "7" 145 2024 2 "t2" (by decide)⟩

/-- C2: submitting a reading fails (with the invalid-reading message and
no saved invoice — the document is returned unchanged) exactly when the
reading is below the previous one; the previous reading defaults to `0`
when the subscriber has no prior invoice, so any non-negative first
reading is accepted. -/
theorem submit_reading_invalid_iff (doc : Doc) (uid : String) (current : ℚ)
    (y m : Nat) (ts now : String) :
    ((submit_reading doc uid current y m ts now).1 ≠ none ↔
        current < (get_last_reading doc uid).getD 0) ∧
    (current < (get_last_reading doc uid).getD 0 →
        (submit_reading doc uid current y m ts now).2 = doc) ∧
    (get_last_reading doc uid = none → (get_last_reading doc uid).getD 0 = 0) ∧
    (get_last_reading doc uid = none → 0 ≤ current →
        (submit_reading doc uid current y m ts now).1 = none) := by
  by_cases hlt : current < (get_last_reading doc uid).getD 0
  · refine ⟨⟨fun _ => hlt, fun _ => ?_⟩, fun _ => ?_, fun h0 => by simp [h0], ?_⟩
    · simp [submit_reading, calculate_invoice, if_pos hlt]
    · simp [submit_reading, calculate_invoice, if_pos hlt]
    · intro h0 hge
      rw [h0] at hlt
      simp only [Option.getD_none] at hlt
      exact absurd hlt (not_lt.mpr hge)
  · refine ⟨⟨fun hne => ?_, fun h => absurd h hlt⟩, fun h => absurd h hlt,
      fun h0 => by simp [h0], fun _ _ => ?_⟩
    · exact absurd (by simp [submit_reading, calculate_invoice, if_neg hlt]) hne
    · simp [submit_reading, calculate_invoice, if_neg hlt]

/-- C2 witness: on a document with one saved invoice (current reading
100) a new reading of 50 is rejected and the document is unchanged. -/
theorem submit_reading_invalid_iff_witness :
    ((submit_reading
        { users := [("7", { last_reading := some 100 })],
          invoices := [("7_2024-01",
            { user_id := "7", year_month := "2024-01", previous_reading := 40,
              current_reading := 100, consumption := 60, total_amount := 42250,
              timestamp := "t" })] } "7" 50 2024 2 "t2" "n2").1 ≠ none ↔
        (50 : ℚ) < (get_last_reading
        { users := [("7", { last_reading := some 100 })],
          invoices := [("7_2024-01",
            { user_id := "7", year_month := "2024-01", previous_reading := 40,
              current_reading := 100, consumption := 60, total_amount := 42250,
              timestamp := "t" })] } "7").getD 0) ∧
    ((50 : ℚ) < (get_last_reading
        { users := [("7", { last_reading := some 100 })],
          invoices := [("7_2024-01",
            { user_id := "7", year_month := "2024-01", previous_reading := 40,
              current_reading := 100, consumption := 60, total_amount := 42250,
              timestamp := "t" })] } "7").getD 0 →
        (submit_reading
        { users := [("7", { last_reading := some 100 })],
          invoices := [("7_2024-01",
            { user_id := "7", year_month := "2024-01", previous_reading := 40,
              current_reading := 100, consumption := 60, total_amount := 42250,
              timestamp := "t" })] } "7" 50 2024 2 "t2" "n2").2 =
        { users := [("7", { last_reading := some 100 })],
          invoices := [("7_2024-01",
            { user_id := "7", year_month := "2024-01", previous_reading := 40,
              current_reading := 100, consumption := 60, total_amount := 42250,
              timestamp := "t" })] }) ∧
    (get_last_reading
        { users := [("7", { last_reading := some 100 })],
          invoices := [("7_2024-01",
            { user_id := "7", year_month := "2024-01", previous_reading := 40,
              current_reading := 100, consumption := 60, total_amount := 42250,
              timestamp := "t" })] } "7" = none →
        (get_last_reading
        { users := [("7", { last_reading := some 100 })],
          invoices := [("7_2024-01",
            { user_id := "7", year_month := "2024-01", previous_reading := 40,
              current_reading := 100, consumption := 60, total_amount := 42250,
              timestamp := "t" })] } "7").getD 0 = 0) ∧
    (get_last_reading
        { users := [("7", { last_reading := some 100 })],
          invoices := [("7_2024-01",
            { user_id := "7", year_month := "2024-01", previous_reading := 40,
              current_reading := 100, consumption := 60, total_amount := 42250,
              timestamp := "t" })] } "7" = none → (0 : ℚ) ≤ 50 →
        (submit_reading
        { users := [("7", { last_reading := some 100 })],
          invoices := [("7_2024-01",
            { user_id := "7", year_month := "2024-01", previous_reading := 40,
              current_reading := 100, consumption := 60, total_amount := 42250,
              timestamp := "t" })] } "7" 50 2024 2 "t2" "n2").1 = none) :=
  submit_reading_invalid_iff _ "7" 50 2024 2 "t2" "n2"

lemma dictGet_cons {α : Type} (k k1 : String) (v1 : α) (rest : List (String × α)) :
    dictGet k ((k1, v1) :: rest) = if k1 = k then some v1 else dictGet k rest := by
  by_cases h : k1 = k <;> simp [dictGet, List.find?_cons, h]

lemma dictGet_dictInsert_self {α : Type} (k : String) (v : α)
    (l : List (String × α)) : dictGet k (dictInsert k v l) = some v := by
  induction l with
  | nil => simp [dictInsert, dictGet, List.find?_cons]
  | cons p rest ih =>
      obtain ⟨k1, v1⟩ := p
      by_cases h : k1 = k
      · simp [dictInsert, h, dictGet_cons]
      · simpa [dictInsert, h, dictGet_cons] using ih

lemma mem_keys_dictInsert {α : Type} (a k : String) (v : α)
    (l : List (String × α)) :
    a ∈ (dictInsert k v l).map Prod.fst ↔ a = k ∨ a ∈ l.map Prod.fst := by
  induction l with
  | nil => simp [dictInsert]
  | cons p rest ih =>
      obtain ⟨k1, v1⟩ := p
      by_cases h : k1 = k
      · subst h; simp [dictInsert]
      · simp [dictInsert, h, ih]
        tauto

lemma nodup_keys_dictInsert {α : Type} (k : String) (v : α)
    (l : List (String × α)) (h : (l.map Prod.fst).Nodup) :
    ((dictInsert k v l).map Prod.fst).Nodup := by
  induction l with
  | nil => simp [dictInsert]
  | cons p rest ih =>
      obtain ⟨k1, v1⟩ := p
      simp only [List.map_cons, List.nodup_cons] at h
      by_cases hk : k1 = k
      · subst hk
        simpa [dictInsert] using h
      · simp only [dictInsert, if_neg hk, List.map_cons]
        refine List.nodup_cons.mpr ⟨?_, ih h.2⟩
        rw [mem_keys_dictInsert]
        push_neg
        exact ⟨hk, h.1⟩

lemma key_mem_keys_dictInsert {α : Type} (k : String) (v : α)
    (l : List (String × α)) : k ∈ (dictInsert k v l).map Prod.fst :=
  (mem_keys_dictInsert k k v l).mpr (Or.inl rfl)

lemma dictGet_updateAssoc_self {α : Type} (k : String) (f : α → α)
    (l : List (String × α)) :
    dictGet k (updateAssoc k f l) = (dictGet k l).map f := by
  induction l with
  | nil => simp [updateAssoc, dictGet]
  | cons p rest ih =>
      obtain ⟨k1, v1⟩ := p
      by_cases h : k1 = k
      · simp [updateAssoc, h, dictGet_cons]
      · simpa [updateAssoc, h, dictGet_cons] using ih

lemma get_user_doc_mem (doc : Doc) (uid now : String) :
    ∃ u, dictGet uid (get_user_doc doc uid now).users = some u := by
  unfold get_user_doc
  by_cases hany : doc.users.any (fun p => p.1 == uid)
  · rw [if_pos hany]
    obtain ⟨p, hp, hbeq⟩ := List.any_eq_true.mp hany
    have : (doc.users.find? (fun p => p.1 == uid)).isSome = true :=
      List.find?_isSome.mpr ⟨p, hp, hbeq⟩
    obtain ⟨q, hq⟩ := Option.isSome_iff_exists.mp this
    exact ⟨q.2, by simp [dictGet, hq]⟩
  · rw [if_neg hany]
    refine ⟨defaultUser now, ?_⟩
    have hnone : doc.users.find? (fun p => p.1 == uid) = none := by
      rw [List.find?_eq_none]
      intro p hp hbeq
      exact hany (List.any_eq_true.mpr ⟨p, hp, hbeq⟩)
    simp [dictGet, List.find?_append, hnone, List.find?_cons]

lemma save_invoice_user_refresh (d : Doc) (j : Invoice) (t : String) :
    ∃ u, dictGet j.user_id (save_invoice d j t).1.users = some u ∧
      u.last_reading = some j.current_reading ∧
      u.last_invoice_date = some j.year_month := by
  obtain ⟨u0, hu0⟩ := get_user_doc_mem d j.user_id t
  have hg : dictGet j.user_id (save_invoice d j t).1.users =
      some { u0 with last_reading := some j.current_reading,
                      last_invoice_date := some j.year_month } := by
    rw [show (save_invoice d j t).1.users =
        updateAssoc j.user_id
          (fun u => { u with last_reading := some j.current_reading,
                             last_invoice_date := some j.year_month })
          (get_user_doc d j.user_id t).users from rfl]
    rw [dictGet_updateAssoc_self, hu0]
    rfl
  exact ⟨_, hg, rfl, rfl⟩

/-- C3: saving two invoices with the same `(subscriber, period)`
composite key leaves exactly one stored invoice under that key, with the
second call's record winning (idempotent upsert); and every save
refreshes the owning subscriber's cached `last_reading` /
`last_invoice_date` to the saved invoice's reading and period. -/
theorem save_invoice_upsert_last_write_wins (doc : Doc) (inv1 inv2 : Invoice)
    (t1 t2 : String) (hkeys : (doc.invoices.map Prod.fst).Nodup)
    (hu : inv2.user_id = inv1.user_id) (hym : inv2.year_month = inv1.year_month) :
    (((save_invoice (save_invoice doc inv1 t1).1 inv2 t2).1.invoices.map
        Prod.fst).count (inv1.user_id ++ "_" ++ inv1.year_month) = 1) ∧
    (dictGet (inv1.user_id ++ "_" ++ inv1.year_month)
        (save_invoice (save_invoice doc inv1 t1).1 inv2 t2).1.invoices = some inv2) ∧
    (∀ d : Doc, ∀ j : Invoice, ∀ t : String,
      ∃ u, dictGet j.user_id (save_invoice d j t).1.users = some u ∧
        u.last_reading = some j.current_reading ∧
        u.last_invoice_date = some j.year_month) := by
  have hinv : (save_invoice (save_invoice doc inv1 t1).1 inv2 t2).1.invoices =
      dictInsert (inv1.user_id ++ "_" ++ inv1.year_month) inv2
        (dictInsert (inv1.user_id ++ "_" ++ inv1.year_month) inv1 doc.invoices) := by
    simp [save_invoice, get_user_doc, hu, hym]
    split <;> split <;> rfl
  refine ⟨?_, ?_, fun d j t => save_invoice_user_refresh d j t⟩
  · rw [hinv]
    exact List.count_eq_one_of_mem
      (nodup_keys_dictInsert _ _ _ (nodup_keys_dictInsert _ _ _ hkeys))
      (key_mem_keys_dictInsert _ _ _)
  · rw [hinv, dictGet_dictInsert_self]

/-- C3 witness: concrete double save for subscriber `"7"`, period
`2024-02`, on an initially empty document. -/
theorem save_invoice_upsert_last_write_wins_witness :
    (((List.map Prod.fst ([] : List (String × Invoice))).Nodup) ∧
      ({ user_id := "7", year_month := "2024-02", previous_reading := 0,
         current_reading := 60, consumption := 60, total_amount := 42250,
         timestamp := "t2" } : Invoice).user_id =
      ({ user_id := "7", year_month := "2024-02", previous_reading := 0,
         current_reading := 45, consumption := 45, total_amount := 31750,
         timestamp := "t1" } : Invoice).user_id ∧
      ({ user_id := "7", year_month := "2024-02", previous_reading := 0,
         current_reading := 60, consumption := 60, total_amount := 42250,
         timestamp := "t2" } : Invoice).year_month =
      ({ user_id := "7", year_month := "2024-02", previous_reading := 0,
         current_reading := 45, consumption := 45, total_amount := 31750,
         timestamp := "t1" } : Invoice).year_month) ∧
    ((((save_invoice (save_invoice {}
        { user_id := "7", year_month := "2024-02", previous_reading := 0,
          current_reading := 45, consumption := 45, total_amount := 31750,
          timestamp := "t1" } "n1").1
        { user_id := "7", year_month := "2024-02", previous_reading := 0,
          current_reading := 60, consumption := 60, total_amount := 42250,
          timestamp := "t2" } "n2").1.invoices.map Prod.fst).count
        ("7" ++ "_" ++ "2024-02") = 1) ∧
      (dictGet ("7" ++ "_" ++ "2024-02")
        (save_invoice (save_invoice {}
        { user_id := "7", year_month := "2024-02", previous_reading := 0,
          current_reading := 45, consumption := 45, total_amount := 31750,
          timestamp := "t1" } "n1").1
        { user_id := "7", year_month := "2024-02", previous_reading := 0,
          current_reading := 60, consumption := 60, total_amount := 42250,
          timestamp := "t2" } "n2").1.invoices = some
        { user_id := "7", year_month := "2024-02", previous_reading := 0,
          current_reading := 60, consumption := 60, total_amount := 42250,
          timestamp := "t2" }) ∧
      (∀ d : Doc, ∀ j : Invoice, ∀ t : String,
        ∃ u, dictGet j.user_id (save_invoice d j t).1.users = some u ∧
          u.last_reading = some j.current_reading ∧
          u.last_invoice_date = some j.year_month)) :=
  ⟨⟨by decide, rfl, rfl⟩,
    save_invoice_upsert_last_write_wins {}
      { user_id := "7", year_month := "2024-02", previous_reading := 0,
        current_reading := 45, consumption := 45, total_amount := 31750,
        timestamp := "t1" }
      { user_id := "7", year_month := "2024-02", previous_reading := 0,
        current_reading := 60, consumption := 60, total_amount := 42250,
        timestamp := "t2" } "n1" "n2" (by decide) rfl rfl⟩

/-- State of the primary data file as `DataManager.load_data` finds it:
missing, unreadable (`open`/`read` raises a non-JSON error), readable
but failing to parse (`json.JSONDecodeError`), or well formed. -/
inductive FileState
  | absent
  | unreadable (raw : String)
  | malformed (raw : String)
  | wellFormed (d : Doc)
deriving DecidableEq

/-- `DataManager.load_data`: result is the returned document together
with the list of quarantine copies written (each element is the byte
content copied by `create_backup_before_fix` via `shutil.copy2`).  The
`except json.JSONDecodeError` arm quarantines and falls back to
`initialize_data_structure`; the generic `except Exception` arm falls
back without quarantining. -/
def load_data (fs : FileState) (now : String) : Doc × List String :=
  match fs with
  | .absent => (init_data_structure now, [])
  | .wellFormed d => (d, [])
  | .malformed raw => (init_data_structure now, [raw])
  | .unreadable _ => (init_data_structure now, [])

/-- Outcome of a Python call: normal return or a raised exception. -/
inductive PyOutcome (α : Type)
  | ok (a : α)
  | raised (exc : String)
deriving DecidableEq

/-- `DataManager.save_data`: `fsFail` is the exception raised by the
filesystem during the backup/write block (`none` = the write succeeds).
The handler logs the error and then re-`raise`s it.  Result: call
outcome, the in-memory document afterwards, and the error log. -/
def save_data (doc : Doc) (fsFail : Option String) :
    PyOutcome Unit × Doc × List String :=
  match fsFail with
  | none => (.ok (), doc, [])
  | some e => (.raised e, doc, [e])

/-- C4 counterexample: a file that cannot be read at all (the generic
`except Exception` arm, e.g. an `OSError` from `open`) yields a fresh
empty document with NO quarantine copy, refuting the claim that load
never returns an empty document for an unreadable file without first
quarantining it. -/
theorem load_data_unreadable_no_quarantine :
    (load_data (FileState.unreadable "not json") "t0").1 =
        init_data_structure "t0" ∧
    (load_data (FileState.unreadable "not json") "t0").2 = [] := ⟨rfl, rfl⟩

/-- C4 (amended): a file whose content fails to parse is quarantined
with a byte-identical copy and a fresh empty document is returned; a
missing file and a well-formed file behave as expected and load never
raises (it is total); but a file that cannot be read at all (I/O error
rather than parse failure) yields the fresh empty document without a
quarantine copy. -/
theorem load_data_quarantine_spec (raw now : String) (d : Doc) :
    load_data (FileState.malformed raw) now = (init_data_structure now, [raw]) ∧
    load_data (FileState.unreadable raw) now = (init_data_structure now, []) ∧
    load_data FileState.absent now = (init_data_structure now, []) ∧
    load_data (FileState.wellFormed d) now = (d, []) :=
  ⟨rfl, rfl, rfl, rfl⟩

/-- C5 counterexample: a filesystem error during save is re-raised to
the caller as the original raw exception (the handler logs and then
`raise`s), refuting the claim that it is surfaced as a store-level
failure instead of being propagated. -/
theorem save_data_propagates_raw_exception :
    (save_data (init_data_structure "t0") (some "OSError: disk full")).1 =
      PyOutcome.raised "OSError: disk full" := rfl

/-- C5 (amended): a filesystem error during save is caught, logged, and
re-raised to the caller as the original exception; the in-memory
document is unchanged by both a failed and a successful save, so the
operation can be retried. -/
theorem save_data_failure_spec (doc : Doc) (e : String) :
    save_data doc (some e) = (.raised e, doc, [e]) ∧
    save_data doc none = (.ok (), doc, []) :=
  ⟨rfl, rfl⟩

lemma digitChar_lt_iff (a b : Nat) :
    digitChar a < digitChar b ↔ a % 10 < b % 10 := by
  have h1 : a % 10 < 10 := Nat.mod_lt _ (by norm_num)
  have h2 : b % 10 < 10 := Nat.mod_lt _ (by norm_num)
  unfold digitChar
  revert h1 h2
  generalize a % 10 = x
  generalize b % 10 = y
  intro h1 h2
  interval_cases x <;> interval_cases y <;> simp_all

lemma digitChar_eq_iff (a b : Nat) :
    digitChar a = digitChar b ↔ a % 10 = b % 10 := by
  have h1 : a % 10 < 10 := Nat.mod_lt _ (by norm_num)
  have h2 : b % 10 < 10 := Nat.mod_lt _ (by norm_num)
  unfold digitChar
  revert h1 h2
  generalize a % 10 = x
  generalize b % 10 = y
  intro h1 h2
  interval_cases x <;> interval_cases y <;> simp_all

lemma charList_cons_lt_iff {a b : Char} {l1 l2 : List Char} :
    (a :: l1) < (b :: l2) ↔ a < b ∨ (a = b ∧ l1 < l2) := by
  constructor
  · intro h
    cases h with
    | cons h => exact Or.inr ⟨rfl, h⟩
    | rel h => exact Or.inl h
  · rintro (h | ⟨rfl, h⟩)
    · exact List.Lex.rel h
    · exact List.Lex.cons h

lemma charList_nil_lt_nil : ¬ ([] : List Char) < ([] : List Char) := nofun

/-- Comparing two zero-padded `YYYY-MM` period keys with string
(list-of-characters) order is exactly the chronological comparison of
(year, month) pairs, for any year `strftime` can print in four digits. -/
lemma periodKey_lt_iff (y1 m1 y2 m2 : Nat)
    (hy1 : y1 ≤ 9999) (hy2 : y2 ≤ 9999) (hm1 : m1 ≤ 99) (hm2 : m2 ≤ 99) :
    (periodKey y1 m1 < periodKey y2 m2 ↔ (y1 < y2 ∨ (y1 = y2 ∧ m1 < m2))) := by
  rw [String.lt_iff_toList_lt]
  show ([digitChar (y1 / 1000), digitChar (y1 / 100), digitChar (y1 / 10),
      digitChar y1, '-', digitChar (m1 / 10), digitChar m1] : List Char) <
    [digitChar (y2 / 1000), digitChar (y2 / 100), digitChar (y2 / 10),
      digitChar y2, '-', digitChar (m2 / 10), digitChar m2] ↔ _
  simp only [charList_cons_lt_iff, digitChar_lt_iff, digitChar_eq_iff,
    lt_self_iff_false, false_or, eq_self_iff_true, true_and,
    charList_nil_lt_nil, or_false, and_false]
  have a1 : y1 / 100 / 10 = y1 / 1000 := by rw [Nat.div_div_eq_div_mul]
  have a2 : y1 / 10 / 10 = y1 / 100 := by rw [Nat.div_div_eq_div_mul]
  have a3 : y1 / 1000 / 10 = y1 / 10000 := by rw [Nat.div_div_eq_div_mul]
  have b1 : y2 / 100 / 10 = y2 / 1000 := by rw [Nat.div_div_eq_div_mul]
  have b2 : y2 / 10 / 10 = y2 / 100 := by rw [Nat.div_div_eq_div_mul]
  have b3 : y2 / 1000 / 10 = y2 / 10000 := by rw [Nat.div_div_eq_div_mul]
  have c1 : m1 / 10 / 10 = m1 / 100 := by rw [Nat.div_div_eq_div_mul]
  have c2 : m2 / 10 / 10 = m2 / 100 := by rw [Nat.div_div_eq_div_mul]
  omega

/-- C6: `get_user_invoices` returns at most `N` invoices, all belonging
to the requested subscriber, in strictly descending period-key order
(granted the claim's own premise that this subscriber's stored periods
are pairwise distinct); and on zero-padded `YYYY-MM` keys the
string-lexicographic order used by the sort coincides with
chronological order. -/
theorem get_user_invoices_ordered_truncated (doc : Doc) (uid : String) (N : Nat)
    (hN : ((((doc.invoices.map Prod.snd)).filter
        (fun inv => inv.user_id == uid)).map Invoice.year_month).Nodup) :
    (get_user_invoices doc uid N).length ≤ N ∧
    (∀ inv ∈ get_user_invoices doc uid N, inv.user_id = uid) ∧
    (get_user_invoices doc uid N).Pairwise
      (fun a b => b.year_month < a.year_month) ∧
    (∀ y1 m1 y2 m2 : Nat, y1 ≤ 9999 → y2 ≤ 9999 → m1 ≤ 99 → m2 ≤ 99 →
      (periodKey y1 m1 < periodKey y2 m2 ↔ (y1 < y2 ∨ (y1 = y2 ∧ m1 < m2)))) := by
  refine ⟨List.length_take_le _ _, ?_, ?_, periodKey_lt_iff⟩
  · intro inv hmem
    have h1 : inv ∈ List.insertionSort ymGE
        ((doc.invoices.map Prod.snd).filter (fun i => i.user_id == uid)) :=
      List.mem_of_mem_take hmem
    have h2 : inv ∈ (doc.invoices.map Prod.snd).filter
        (fun i => i.user_id == uid) :=
      (List.perm_insertionSort ymGE _).mem_iff.mp h1
    simpa using (List.mem_filter.mp h2).2
  · have hsorted : List.Sorted ymGE (List.insertionSort ymGE
        ((doc.invoices.map Prod.snd).filter (fun i => i.user_id == uid))) :=
      List.sorted_insertionSort ymGE _
    have hperm := List.perm_insertionSort ymGE
        ((doc.invoices.map Prod.snd).filter (fun i => i.user_id == uid))
    have hnodup : ((List.insertionSort ymGE
        ((doc.invoices.map Prod.snd).filter (fun i => i.user_id == uid))).map
          Invoice.year_month).Nodup :=
      ((hperm.map Invoice.year_month).nodup_iff).mpr hN
    have hpne : (List.insertionSort ymGE
        ((doc.invoices.map Prod.snd).filter (fun i => i.user_id == uid))).Pairwise
          (fun a b => a.year_month ≠ b.year_month) := by
      rw [List.Nodup, List.pairwise_map] at hnodup
      exact hnodup
    have hlt : (List.insertionSort ymGE
        ((doc.invoices.map Prod.snd).filter (fun i => i.user_id == uid))).Pairwise
          (fun a b => b.year_month < a.year_month) :=
      (hsorted.and hpne).imp (fun h => lt_of_le_of_ne h.1 h.2.symm)
    exact hlt.sublist (List.take_sublist _ _)

/-- C6 witness: a two-invoice document for subscriber `"7"` with
distinct periods. -/
theorem get_user_invoices_ordered_truncated_witness :
    (((([("7_2024-01",
        { user_id := "7", year_month := "2024-01", previous_reading := 0,
          current_reading := 40, consumption := 40, total_amount := 28250,
          timestamp := "t1" }),
       ("7_2024-02",
        { user_id := "7", year_month := "2024-02", previous_reading := 40,
          current_reading := 90, consumption := 50, total_amount := 35250,
          timestamp := "t2" })] : List (String × Invoice)).map
            Prod.snd).filter (fun inv => inv.user_id == "7")).map
            Invoice.year_month).Nodup ∧
    ((get_user_invoices
        { invoices := [("7_2024-01",
          { user_id := "7", year_month := "2024-01", previous_reading := 0,
            current_reading := 40, consumption := 40, total_amount := 28250,
            timestamp := "t1" }),
         ("7_2024-02",
          { user_id := "7", year_month := "2024-02", previous_reading := 40,
            current_reading := 90, consumption := 50, total_amount := 35250,
            timestamp := "t2" })] } "7" 5).length ≤ 5 ∧
    (∀ inv ∈ get_user_invoices
        { invoices := [("7_2024-01",
          { user_id := "7", year_month := "2024-01", previous_reading := 0,
            current_reading := 40, consumption := 40, total_amount := 28250,
            timestamp := "t1" }),
         ("7_2024-02",
          { user_id := "7", year_month := "2024-02", previous_reading := 40,
            current_reading := 90, consumption := 50, total_amount := 35250,
            timestamp := "t2" })] } "7" 5, inv.user_id = "7") ∧
    (get_user_invoices
        { invoices := [("7_2024-01",
          { user_id := "7", year_month := "2024-01", previous_reading := 0,
            current_reading := 40, consumption := 40, total_amount := 28250,
            timestamp := "t1" }),
         ("7_2024-02",
          { user_id := "7", year_month := "2024-02", previous_reading := 40,
            current_reading := 90, consumption := 50, total_amount := 35250,
            timestamp := "t2" })] } "7" 5).Pairwise
      (fun a b => b.year_month < a.year_month) ∧
    (∀ y1 m1 y2 m2 : Nat, y1 ≤ 9999 → y2 ≤ 9999 → m1 ≤ 99 → m2 ≤ 99 →
      (periodKey y1 m1 < periodKey y2 m2 ↔ (y1 < y2 ∨ (y1 = y2 ∧ m1 < m2))))) :=
  ⟨by decide, get_user_invoices_ordered_truncated _ "7" 5 (by decide)⟩

/-- Direction of the month-over-month comparison shown by
`format_invoice_message`. -/
inductive TrendClass
  | increase
  | decrease
  | unchanged
deriving DecidableEq

/-- The `if change > 0 / elif change < 0 / else` classification in
`format_invoice_message`. -/
def classifyTrend (q : ℚ) : TrendClass :=
  if 0 < q then .increase else if q < 0 then .decrease else .unchanged

/-- The comparison block of `WaterBillBot.format_invoice_message`:
fetch this subscriber's two most recent invoices, and when a previous
invoice exists with strictly positive consumption, produce the signed
percentage change and its classification; otherwise no comparison. -/
def trendOf (doc : Doc) (inv : Invoice) : Option (TrendClass × ℚ) :=
  match (get_user_invoices doc inv.user_id 2)[1]? with
  | none => none
  | some prev =>
      if 0 < prev.consumption then
        let change := (inv.consumption - prev.consumption) / prev.consumption * 100
        some (classifyTrend change, change)
      else none

lemma mem_get_user_invoices (doc : Doc) (uid : String) (N : Nat) :
    ∀ inv ∈ get_user_invoices doc uid N, ∃ k, (k, inv) ∈ doc.invoices := by
  intro inv hmem
  have h1 : inv ∈ List.insertionSort ymGE
      ((doc.invoices.map Prod.snd).filter (fun i => i.user_id == uid)) :=
    List.mem_of_mem_take hmem
  have h2 : inv ∈ (doc.invoices.map Prod.snd).filter (fun i => i.user_id == uid) :=
    (List.perm_insertionSort ymGE _).mem_iff.mp h1
  have h3 : inv ∈ doc.invoices.map Prod.snd := (List.mem_filter.mp h2).1
  obtain ⟨p, hp, hpe⟩ := List.mem_map.mp h3
  exact ⟨p.1, by rwa [show (p.1, inv) = p from by rw [← hpe]]⟩

/-- C7: the comparison shown with an invoice is the signed percentage
`(current − previous) / previous * 100` against the second most recent
invoice, classified as increase / decrease / unchanged by its sign, and
no comparison is produced exactly when there is no previous invoice or
the previous consumption is zero (consumptions of stored invoices being
non-negative, as the validation rule guarantees). -/
theorem trend_percentage_spec (doc : Doc) (inv : Invoice)
    (hpos : ∀ p ∈ doc.invoices, 0 ≤ (Prod.snd p).consumption) :
    (trendOf doc inv = none ↔
      ((get_user_invoices doc inv.user_id 2)[1]? = none ∨
       ∃ prev, (get_user_invoices doc inv.user_id 2)[1]? = some prev ∧
         prev.consumption = 0)) ∧
    (∀ prev, (get_user_invoices doc inv.user_id 2)[1]? = some prev →
      0 < prev.consumption →
      trendOf doc inv = some (classifyTrend
          ((inv.consumption - prev.consumption) / prev.consumption * 100),
        (inv.consumption - prev.consumption) / prev.consumption * 100)) ∧
    (∀ q : ℚ, (classifyTrend q = .increase ↔ 0 < q) ∧
      (classifyTrend q = .decrease ↔ q < 0) ∧
      (classifyTrend q = .unchanged ↔ q = 0)) := by
  refine ⟨?_, ?_, ?_⟩
  · cases h1 : (get_user_invoices doc inv.user_id 2)[1]? with
    | none => simp [trendOf, h1]
    | some prev =>
        have hprevmem : prev ∈ get_user_invoices doc inv.user_id 2 :=
          List.getElem?_mem h1
        obtain ⟨k, hk⟩ := mem_get_user_invoices doc inv.user_id 2 prev hprevmem
        have h0 : 0 ≤ prev.consumption := hpos (k, prev) hk
        by_cases hc : 0 < prev.consumption
        · simp [trendOf, h1, if_pos hc, hc.ne.symm]
        · have hz : prev.consumption = 0 := le_antisymm (not_lt.mp hc) h0
          simp [trendOf, h1, if_neg hc, hz]
  · intro prev h1 hc
    simp [trendOf, h1, if_pos hc]
  · intro q
    unfold classifyTrend
    split_ifs with h1 h2
    · simp [h1, lt_asymm h1, h1.ne.symm]
    · simp [h1, h2, h2.ne]
    · have hz : q = 0 := le_antisymm (not_lt.mp h1) (not_lt.mp h2)
      simp [h1, h2, hz]

/-- C7 witness: previous consumption 40 and current consumption 50 give
the spec example `+25.0` percent, classified as an increase. -/
theorem trend_percentage_spec_witness :
    (∀ p ∈ ({ invoices := [("7_2024-01",
        { user_id := "7", year_month := "2024-01", previous_reading := 0,
          current_reading := 40, consumption := 40, total_amount := 28250,
          timestamp := "t1" }),
       ("7_2024-02",
        { user_id := "7", year_month := "2024-02", previous_reading := 40,
          current_reading := 90, consumption := 50, total_amount := 35250,
          timestamp := "t2" })] } : Doc).invoices,
        (0 : ℚ) ≤ (Prod.snd p).consumption) ∧
    ((∀ prev, (get_user_invoices
        { invoices := [("7_2024-01",
          { user_id := "7", year_month := "2024-01", previous_reading := 0,
            current_reading := 40, consumption := 40, total_amount := 28250,
            timestamp := "t1" }),
         ("7_2024-02",
          { user_id := "7", year_month := "2024-02", previous_reading := 40,
            current_reading := 90, consumption := 50, total_amount := 35250,
            timestamp := "t2" })] }
        ({ user_id := "7", year_month := "2024-02", previous_reading := 40,
           current_reading := 90, consumption := 50, total_amount := 35250,
           timestamp := "t2" } : Invoice).user_id 2)[1]? = some prev →
      0 < prev.consumption →
      trendOf
        { invoices := [("7_2024-01",
          { user_id := "7", year_month := "2024-01", previous_reading := 0,
            current_reading := 40, consumption := 40, total_amount := 28250,
            timestamp := "t1" }),
         ("7_2024-02",
          { user_id := "7", year_month := "2024-02", previous_reading := 40,
            current_reading := 90, consumption := 50, total_amount := 35250,
            timestamp := "t2" })] }
        { user_id := "7", year_month := "2024-02", previous_reading := 40,
          current_reading := 90, consumption := 50, total_amount := 35250,
          timestamp := "t2" } = some (classifyTrend
          ((({ user_id := "7", year_month := "2024-02", previous_reading := 40,
               current_reading := 90, consumption := 50, total_amount := 35250,
               timestamp := "t2" } : Invoice).consumption - prev.consumption) /
            prev.consumption * 100),
        (({ user_id := "7", year_month := "2024-02", previous_reading := 40,
            current_reading := 90, consumption := 50, total_amount := 35250,
            timestamp := "t2" } : Invoice).consumption - prev.consumption) /
          prev.consumption * 100)) ∧
    (∀ q : ℚ, (classifyTrend q = .increase ↔ 0 < q) ∧
      (classifyTrend q = .decrease ↔ q < 0) ∧
      (classifyTrend q = .unchanged ↔ q = 0))) :=
  ⟨by decide,
    (trend_percentage_spec
      { invoices := [("7_2024-01",
        { user_id := "7", year_month := "2024-01", previous_reading := 0,
          current_reading := 40, consumption := 40, total_amount := 28250,
          timestamp := "t1" }),
       ("7_2024-02",
        { user_id := "7", year_month := "2024-02", previous_reading := 40,
          current_reading := 90, consumption := 50, total_amount := 35250,
          timestamp := "t2" })] }
      { user_id := "7", year_month := "2024-02", previous_reading := 40,
        current_reading := 90, consumption := 50, total_amount := 35250,
        timestamp := "t2" } (by decide)).2.1,
    (trend_percentage_spec
      { invoices := [("7_2024-01",
        { user_id := "7", year_month := "2024-01", previous_reading := 0,
          current_reading := 40, consumption := 40, total_amount := 28250,
          timestamp := "t1" }),
       ("7_2024-02",
        { user_id := "7", year_month := "2024-02", previous_reading := 40,
          current_reading := 90, consumption := 50, total_amount := 35250,
          timestamp := "t2" })] }
      { user_id := "7", year_month := "2024-02", previous_reading := 40,
        current_reading := 90, consumption := 50, total_amount := 35250,
        timestamp := "t2" } (by decide)).2.2⟩

/-- Python `str.startswith`: `hasPre p s` holds when `s` starts with `p`. -/
def hasPre : List Char → List Char → Bool
  | [], _ => true
  | _ :: _, [] => false
  | a :: as, b :: bs => a == b && hasPre as bs

/-- Python substring containment `needle in hay`. -/
def hasSub (n : List Char) : List Char → Bool
  | [] => n.isEmpty
  | c :: t => hasPre n (c :: t) || hasSub n t

lemma hasPre_append (p r : List Char) : hasPre p (p ++ r) = true := by
  induction p with
  | nil => rfl
  | cons a as ih => simp [hasPre, ih]

lemma hasSub_nil_needle (l : List Char) : hasSub [] l = true := by
  cases l <;> simp [hasSub, hasPre, List.isEmpty]

lemma hasSub_mid (a n b : List Char) : hasSub n (a ++ (n ++ b)) = true := by
  induction a with
  | nil =>
      cases n with
      | nil => simpa using hasSub_nil_needle b
      | cons x xs => simp [hasSub, hasPre, hasPre_append]
  | cons x xs ih => simp [hasSub, ih]

/-- Backup filename written by `create_backup("auto")`:
`water_bill_backup_auto_{timestamp}.json`. -/
def autoBackupName (stamp : String) : String :=
  "water_bill_backup_auto_" ++ stamp ++ ".json"

/-- The `backup_exists` scan of `DataManager.create_auto_backup`: some
file starting with `water_bill_backup_auto_` contains today's
`YYYYMMDD` stamp. -/
def hasAutoBackupToday (dir : List String) (today : String) : Bool :=
  dir.any (fun f => hasPre "water_bill_backup_auto_".data f.data &&
    hasSub today.data f.data)

/-- `DataManager.create_auto_backup` as an action on the set of backup
filenames: create a dated auto backup unless one carrying today's stamp
already exists (`hms` is the `HHMMSS` part of the timestamp). -/
def create_auto_backup (dir : List String) (today hms : String) : List String :=
  if hasAutoBackupToday dir today then dir
  else dir ++ [autoBackupName (today ++ "_" ++ hms)]

/-- C8: the auto backup taken before a persisted write is created only
when no existing auto-backup filename contains today's date stamp, so at
most one auto backup is created per calendar day: a second call on the
same day (at any later time) changes nothing. -/
theorem create_auto_backup_at_most_daily (dir : List String)
    (today h1 h2 : String) :
    (hasAutoBackupToday dir today = true →
        create_auto_backup dir today h1 = dir) ∧
    (hasAutoBackupToday dir today = false →
        create_auto_backup dir today h1 =
          dir ++ [autoBackupName (today ++ "_" ++ h1)]) ∧
    create_auto_backup (create_auto_backup dir today h1) today h2 =
      create_auto_backup dir today h1 := by
  refine ⟨fun h => by simp [create_auto_backup, h],
    fun h => by simp [create_auto_backup, h], ?_⟩
  by_cases hx : hasAutoBackupToday dir today
  · simp [create_auto_backup, hx]
  · have hname : hasAutoBackupToday
        (dir ++ [autoBackupName (today ++ "_" ++ h1)]) today = true := by
      unfold hasAutoBackupToday
      rw [List.any_append, Bool.or_eq_true]
      right
      rw [List.any_cons, List.any_nil, Bool.or_false, Bool.and_eq_true]
      constructor
      · simp only [autoBackupName, String.data_append, List.append_assoc]
        exact hasPre_append _ _
      · simp only [autoBackupName, String.data_append, List.append_assoc]
        exact hasSub_mid _ _ _
    simp [create_auto_backup, hx, hname]

/-- C8 witness: concrete empty backup directory, stamp `20240210`. -/
theorem create_auto_backup_at_most_daily_witness :
    (hasAutoBackupToday [] "20240210" = true →
        create_auto_backup [] "20240210" "120000" = []) ∧
    (hasAutoBackupToday [] "20240210" = false →
        create_auto_backup [] "20240210" "120000" =
          [] ++ [autoBackupName ("20240210" ++ "_" ++ "120000")]) ∧
    create_auto_backup (create_auto_backup [] "20240210" "120000")
        "20240210" "130000" =
      create_auto_backup [] "20240210" "120000" :=
  create_auto_backup_at_most_daily [] "20240210" "120000" "130000"

/-- Python `str.endswith`. -/
def hasSuf (n h : List Char) : Bool := hasPre n.reverse h.reverse

/-- The filename pattern of `cleanup_old_backups`:
`startswith("water_bill_backup_") and endswith(".json")`. -/
def matchesBackup (f : String) : Bool :=
  hasPre "water_bill_backup_".data f.data && hasSuf ".json".data f.data

/-- Ascending order on `(filename, mtime)` pairs used by the sweep's
`sort(key=os.path.getmtime)`. -/
def mtimeLE (a b : String × Nat) : Prop := a.2 ≤ b.2

instance : DecidableRel mtimeLE :=
  fun a b => inferInstanceAs (Decidable (a.2 ≤ b.2))

instance : IsTotal (String × Nat) mtimeLE := ⟨fun a b => Nat.le_total a.2 b.2⟩

instance : IsTrans (String × Nat) mtimeLE := ⟨fun _ _ _ => Nat.le_trans⟩

/-- `DataManager.cleanup_old_backups` on the backup directory listing
(filename with its modification time): when more than `keep_last`
files match the backup pattern, delete all but the `keep_last` most
recently modified ones (`backup_files[:-keep_last]` after an ascending
mtime sort). -/
def cleanup_old_backups (dir : List (String × Nat)) (keep_last : Nat) :
    List (String × Nat) :=
  let backup_files := dir.filter (fun f => matchesBackup f.1)
  if backup_files.length > keep_last then
    let sorted := List.insertionSort mtimeLE backup_files
    let toDelete := sorted.take (sorted.length - keep_last)
    dir.filter (fun f => decide (f ∉ toDelete))
  else dir

lemma matchesBackup_corrupted (s : String) :
    matchesBackup ("corrupted_data_" ++ s) = false := by
  have h1 : ("corrupted_data_" ++ s).data =
      'c' :: ("orrupted_data_".data ++ s.data) := by
    rw [String.data_append]
    rfl
  have h2 : "water_bill_backup_".data = 'w' :: "ater_bill_backup_".data := rfl
  unfold matchesBackup
  rw [h1, h2]
  simp [hasPre]

/-- C9: after the retention sweep with the default `keep_last = 10`, the
directory holds exactly `min(backup_count, 10)` files matching the
backup pattern; files not matching the pattern (in particular every
`corrupted_data_*` quarantine copy) are untouched; and every surviving
pattern file is at least as recently modified as every deleted file. -/
theorem cleanup_old_backups_retention (dir : List (String × Nat))
    (hnames : (dir.map Prod.fst).Nodup) :
    ((cleanup_old_backups dir 10).filter (fun f => matchesBackup f.1)).length =
      min (dir.filter (fun f => matchesBackup f.1)).length 10 ∧
    (∀ f ∈ dir, matchesBackup f.1 = false → f ∈ cleanup_old_backups dir 10) ∧
    (∀ s : String, ∀ t : Nat, ("corrupted_data_" ++ s, t) ∈ dir →
        ("corrupted_data_" ++ s, t) ∈ cleanup_old_backups dir 10) ∧
    (∀ f ∈ cleanup_old_backups dir 10, matchesBackup f.1 = true →
      ∀ g ∈ dir, g ∉ cleanup_old_backups dir 10 → g.2 ≤ f.2) := by
  have hdirnodup : dir.Nodup := hnames.of_map
  by_cases hlen : (dir.filter (fun f => matchesBackup f.1)).length > 10
  case neg =>
    have hres : cleanup_old_backups dir 10 = dir := by
      unfold cleanup_old_backups
      rw [if_neg hlen]
    refine ⟨?_, ?_, ?_, ?_⟩
    · rw [hres, min_eq_left (le_of_not_lt hlen)]
    · intro f hf _; rwa [hres]
    · intro s t ht; rwa [hres]
    · intro f _ _ g hg hgnot
      rw [hres] at hgnot
      exact absurd hg hgnot
  case pos =>
    set backs := dir.filter (fun f => matchesBackup f.1) with hbacks
    set sorted := List.insertionSort mtimeLE backs with hsorteddef
    set k := sorted.length - 10 with hk
    set del := sorted.take k with hdel
    have hres : cleanup_old_backups dir 10 =
        dir.filter (fun f => decide (f ∉ del)) := by
      unfold cleanup_old_backups
      rw [if_pos hlen]
    have hperm : sorted.Perm backs := List.perm_insertionSort mtimeLE backs
    have hsortlen : sorted.length = backs.length := hperm.length_eq
    have hbacksnodup : backs.Nodup := hdirnodup.filter _
    have hsortednodup : sorted.Nodup := (hperm.nodup_iff).mpr hbacksnodup
    have hsorted : List.Sorted mtimeLE sorted := List.sorted_insertionSort mtimeLE backs
    have hdelsub : ∀ a ∈ del, a ∈ sorted := fun a ha => List.mem_of_mem_take ha
    have hdelmatches : ∀ a ∈ del, matchesBackup a.1 = true := by
      intro a ha
      have : a ∈ backs := hperm.mem_iff.mp (hdelsub a ha)
      exact (List.mem_filter.mp this).2
    have hmem_res : ∀ a, a ∈ cleanup_old_backups dir 10 ↔ (a ∈ dir ∧ a ∉ del) := by
      intro a
      rw [hres, List.mem_filter, decide_eq_true_iff]
    have hdisj : ∀ a ∈ sorted.drop k, a ∉ del := by
      have hnd : (del ++ sorted.drop k).Nodup := by
        rw [hdel, List.take_append_drop]
        exact hsortednodup
      have hdisjoint := (List.nodup_append.mp hnd).2.2
      intro a ha hadel
      exact hdisjoint hadel ha
    refine ⟨?_, ?_, ?_, ?_⟩
    · have hcomm : (cleanup_old_backups dir 10).filter (fun f => matchesBackup f.1) =
          backs.filter (fun f => decide (f ∉ del)) := by
        rw [hres, hbacks, List.filter_filter, List.filter_filter]
        apply List.filter_congr
        intro a _
        exact Bool.and_comm _ _
      rw [hcomm]
      have hpf : (backs.filter (fun f => decide (f ∉ del))).length =
          (sorted.filter (fun f => decide (f ∉ del))).length :=
        ((hperm.filter _).length_eq).symm
      have hsplit : sorted.filter (fun f => decide (f ∉ del)) = sorted.drop k := by
        conv_lhs => rw [← List.take_append_drop k sorted]
        rw [List.filter_append]
        have h1 : (sorted.take k).filter (fun f => decide (f ∉ del)) = [] := by
          rw [List.filter_eq_nil_iff]
          intro a ha
          rw [decide_eq_true_iff]
          intro hnot
          exact hnot (by rwa [hdel])
        have h2 : (sorted.drop k).filter (fun f => decide (f ∉ del)) =
            sorted.drop k := by
          rw [List.filter_eq_self]
          intro a ha
          rw [decide_eq_true_iff]
          exact hdisj a ha
        rw [h1, h2, List.nil_append]
      rw [hpf, hsplit, List.length_drop]
      omega
    · intro f hf hfm
      rw [hmem_res]
      refine ⟨hf, fun hfd => ?_⟩
      rw [hdelmatches f hfd] at hfm
      exact Bool.true_eq_false.mp hfm
    · intro s t ht
      rw [hmem_res]
      refine ⟨ht, fun hfd => ?_⟩
      have := hdelmatches _ hfd
      rw [matchesBackup_corrupted] at this
      exact Bool.false_eq_true.mp this
    · intro f hfres hfm g hg hgnot
      have hf1 := (hmem_res f).mp hfres
      have hgdel : g ∈ del := by
        by_contra hgd
        exact hgnot ((hmem_res g).mpr ⟨hg, hgd⟩)
      have hfsorted : f ∈ sorted :=
        hperm.mem_iff.mpr (List.mem_filter.mpr ⟨hf1.1, hfm⟩)
      have hfdrop : f ∈ sorted.drop k := by
        have : f ∈ del ++ sorted.drop k := by
          rw [hdel, List.take_append_drop]
          exact hfsorted
        rcases List.mem_append.mp this with h | h
        · exact absurd h hf1.2
        · exact h
      have hp : List.Pairwise mtimeLE (del ++ sorted.drop k) := by
        rw [hdel, List.take_append_drop]
        exact hsorted
      exact (List.pairwise_append.mp hp).2.2 g hgdel f hfdrop

/-- C9 witness: a directory with two backup files and one quarantine
copy (pairwise distinct names). -/
theorem cleanup_old_backups_retention_witness :
    (([("water_bill_backup_auto_20240101_000000.json", 1),
       ("water_bill_backup_auto_20240102_000000.json", 2),
       ("corrupted_data_20240103_000000.json", 3)] :
        List (String × Nat)).map Prod.fst).Nodup ∧
    (((cleanup_old_backups
        [("water_bill_backup_auto_20240101_000000.json", 1),
         ("water_bill_backup_auto_20240102_000000.json", 2),
         ("corrupted_data_20240103_000000.json", 3)] 10).filter
        (fun f => matchesBackup f.1)).length =
      min (([("water_bill_backup_auto_20240101_000000.json", 1),
             ("water_bill_backup_auto_20240102_000000.json", 2),
             ("corrupted_data_20240103_000000.json", 3)] :
              List (String × Nat)).filter
        (fun f => matchesBackup f.1)).length 10 ∧
    (∀ f ∈ ([("water_bill_backup_auto_20240101_000000.json", 1),
             ("water_bill_backup_auto_20240102_000000.json", 2),
             ("corrupted_data_20240103_000000.json", 3)] :
              List (String × Nat)), matchesBackup f.1 = false →
        f ∈ cleanup_old_backups
          [("water_bill_backup_auto_20240101_000000.json", 1),
           ("water_bill_backup_auto_20240102_000000.json", 2),
           ("corrupted_data_20240103_000000.json", 3)] 10) ∧
    (∀ s : String, ∀ t : Nat, ("corrupted_data_" ++ s, t) ∈
        ([("water_bill_backup_auto_20240101_000000.json", 1),
          ("water_bill_backup_auto_20240102_000000.json", 2),
          ("corrupted_data_20240103_000000.json", 3)] :
           List (String × Nat)) →
        ("corrupted_data_" ++ s, t) ∈ cleanup_old_backups
          [("water_bill_backup_auto_20240101_000000.json", 1),
           ("water_bill_backup_auto_20240102_000000.json", 2),
           ("corrupted_data_20240103_000000.json", 3)] 10) ∧
    (∀ f ∈ cleanup_old_backups
        [("water_bill_backup_auto_20240101_000000.json", 1),
         ("water_bill_backup_auto_20240102_000000.json", 2),
         ("corrupted_data_20240103_000000.json", 3)] 10,
      matchesBackup f.1 = true →
      ∀ g ∈ ([("water_bill_backup_auto_20240101_000000.json", 1),
              ("water_bill_backup_auto_20240102_000000.json", 2),
              ("corrupted_data_20240103_000000.json", 3)] :
               List (String × Nat)),
        g ∉ cleanup_old_backups
          [("water_bill_backup_auto_20240101_000000.json", 1),
           ("water_bill_backup_auto_20240102_000000.json", 2),
           ("corrupted_data_20240103_000000.json", 3)] 10 → g.2 ≤ f.2)) :=
  ⟨by decide, cleanup_old_backups_retention _ (by decide)⟩

lemma getD_true_ne_some_false (o : Option Bool) :
    (o.getD true = true ↔ o ≠ some false) := by
  cases o with
  | none => simp
  | some b => cases b <;> simp

/-- C10: the reminder enumeration includes every stored subscriber
whose `reminder_enabled` key is absent (the `.get` default is `True`);
a subscriber is excluded exactly when the key is explicitly `False`. -/
theorem get_all_users_for_reminder_default_on (doc : Doc) :
    (∀ p : String × UserRec, p ∈ get_all_users_for_reminder doc ↔
      (p ∈ doc.users ∧ p.2.reminder_enabled ≠ some false)) ∧
    (∀ p ∈ doc.users, p.2.reminder_enabled = none →
      p ∈ get_all_users_for_reminder doc) := by
  have hiff : ∀ p : String × UserRec, p ∈ get_all_users_for_reminder doc ↔
      (p ∈ doc.users ∧ p.2.reminder_enabled ≠ some false) := by
    intro p
    rw [get_all_users_for_reminder, List.mem_filter, getD_true_ne_some_false]
  refine ⟨hiff, fun p hp hnone => ?_⟩
  rw [hiff]
  exact ⟨hp, by rw [hnone]; exact Option.noConfusion⟩

/-- C10 witness: a record with the key absent is included, one with the
key explicitly `false` is excluded. -/
theorem get_all_users_for_reminder_default_on_witness :
    (∀ p : String × UserRec, p ∈ get_all_users_for_reminder
        { users := [("7", { reminder_enabled := none }),
                    ("8", { reminder_enabled := some false })] } ↔
      (p ∈ ({ users := [("7", { reminder_enabled := none }),
                    ("8", { reminder_enabled := some false })] } : Doc).users ∧
        p.2.reminder_enabled ≠ some false)) ∧
    (∀ p ∈ ({ users := [("7", { reminder_enabled := none }),
                    ("8", { reminder_enabled := some false })] } : Doc).users,
      p.2.reminder_enabled = none →
      p ∈ get_all_users_for_reminder
        { users := [("7", { reminder_enabled := none }),
                    ("8", { reminder_enabled := some false })] }) :=
  get_all_users_for_reminder_default_on
    { users := [("7", { reminder_enabled := none }),
                ("8", { reminder_enabled := some false })] }

end WaterBillBot
